import Mathlib

/-
Verification development for the DC Hub MCP server
(`dchub_mcp_server.py`): a shallow embedding of its credential
middleware, backend HTTP client, audit logger and tool handlers,
with theorems about the specification's testable properties.

Modelling conventions:
* Python `dict` literals used for query parameters are association
  lists in insertion order (all dicts in the source are built as
  literals with distinct keys).
* Python `float` parameters are modelled as rationals: the source
  performs no floating-point arithmetic on them, only truthiness
  tests and pass-through.
* Python exceptions are modelled with `Except`: a `try/except`
  becomes a `match` on an `Except` value.
-/

namespace DCHub

/-- A Python value as it appears in the query-parameter dicts of the
source: a string, an integer, a float (modelled as a rational), or
`None`. -/
inductive PyVal where
  | str : String → PyVal
  | int : Int → PyVal
  | rat : ℚ → PyVal
  | none : PyVal
deriving DecidableEq, Repr

/-- Python truthiness for the values occurring in the source:
a string is truthy iff non-empty, a number iff non-zero, and
`None` is falsy. -/
def PyVal.truthy : PyVal → Bool
  | .str s => decide (s ≠ "")
  | .int n => decide (n ≠ 0)
  | .rat q => decide (q ≠ 0)
  | .none => false

/-- The dict comprehension `\x7bk: v for k, v in d.items() if v\x7d`
used by every tool handler to drop falsy parameter values. -/
def pyFilterTruthy (d : List (String × PyVal)) : List (String × PyVal) :=
  d.filter fun kv => kv.2.truthy

/-- Python `x if x else None` applied to a float, as in the
`analyze_site` parameter dict (`latitude if latitude else None`). -/
def pyFloatOrNone (q : ℚ) : PyVal :=
  if q ≠ 0 then PyVal.rat q else PyVal.none

/-- Python `x if x else None` applied to an int, as in the
`list_transactions` parameter dict (`year if year else None`). -/
def pyIntOrNone (n : Int) : PyVal :=
  if n ≠ 0 then PyVal.int n else PyVal.none

/-- A JSON value, the shape of backend response bodies. -/
inductive Json where
  | null : Json
  | bool : Bool → Json
  | num : Int → Json
  | str : String → Json
  | arr : List Json → Json
  | obj : List (String × Json) → Json

mutual

/-- Serialization of a JSON value to text, modelling `json.dumps`
(the source's `indent=2` pretty-printing is abstracted to a compact
deterministic rendering; only determinism matters for the theorems). -/
def Json.dumps : Json → String
  | .null => "null"
  | .bool b => cond b "true" "false"
  | .num n => toString n
  | .str s => "\x22" ++ s ++ "\x22"
  | .arr xs => "[" ++ String.intercalate ", " (Json.dumpsList xs) ++ "]"
  | .obj kvs => "\x7b" ++ String.intercalate ", " (Json.dumpsFields kvs) ++ "\x7d"

/-- Serialization of a list of JSON values. -/
def Json.dumpsList : List Json → List String
  | [] => []
  | x :: xs => Json.dumps x :: Json.dumpsList xs

/-- Serialization of the fields of a JSON object. -/
def Json.dumpsFields : List (String × Json) → List String
  | [] => []
  | kv :: xs => ("\x22" ++ kv.1 ++ "\x22: " ++ Json.dumps kv.2) :: Json.dumpsFields xs

end

/-- The uniform error payload `\x7b"error": f"Backend request failed: \x7bexc\x7d"\x7d`
returned by `_api_get` on a caught `RequestException`. -/
def errJson (detail : String) : Json :=
  Json.obj [("error", Json.str ("Backend request failed: " ++ detail))]

/-- Whether a JSON value has exactly the uniform backend-error shape. -/
def Json.isBackendError : Json → Bool
  | .obj [(k, .str s)] => k == "error" && s.startsWith "Backend request failed: "
  | _ => false

/-- A `requests.RequestException` raised by `requests.get` itself
(before any response is available): a timeout or a connection failure. -/
inductive ReqException where
  | timeout : String → ReqException
  | connectionError : String → ReqException
deriving DecidableEq, Repr

/-- The message text of the exception (Python `str(exc)`). -/
def ReqException.detail : ReqException → String
  | .timeout d => d
  | .connectionError d => d

/-- What the network does on one outbound `requests.get`: either the
call itself raises (timeout / connection failure), or a response
arrives with a status code, the message `raise_for_status` would use,
and a body whose JSON parse either succeeds or fails
(`resp.json()` raising a malformed-body `RequestException`). -/
inductive HttpResult where
  | exn : ReqException → HttpResult
  | ok : Nat → String → Except String Json → HttpResult

/-- One outbound backend request as constructed by `_api_get`:
the path, the query parameters actually encoded by `requests`
(after it drops `None`-valued keys), and the headers. -/
structure BackendCall where
  path : String
  params : List (String × PyVal)
  headers : List (String × String)
deriving DecidableEq, Repr

/-- The `requests` library's treatment of the `params=` argument:
keys whose value is `None` are skipped; all other values (including
empty strings and zero) are encoded. -/
def requestsDropNone (d : List (String × PyVal)) : List (String × PyVal) :=
  d.filter fun kv => decide (kv.2 ≠ PyVal.none)

/-- The header dict built by `_api_get`: `X-API-Key` is attached
iff the current context API key is truthy (non-empty). -/
def apiHeaders (api_key : String) : List (String × String) :=
  if api_key ≠ "" then [("X-API-Key", api_key)] else []

/-- The JSON value `_api_get` returns given the network's behaviour:
`resp.raise_for_status()` raises exactly for status codes in
[400, 600); any raised `RequestException` (including a malformed
body from `resp.json()`) is caught and turned into `errJson`. -/
def apiResult (outcome : HttpResult) : Json :=
  match outcome with
  | .exn e => errJson e.detail
  | .ok status detail body =>
      if 400 ≤ status ∧ status < 600 then errJson detail
      else
        match body with
        | .ok j => j
        | .error msg => errJson msg

/-- The `_api_get` helper: builds the outbound call (path, query
parameters via `params=params or \x7b\x7d`, headers from the context API
key) and produces the response JSON, never raising (`except
http_requests.RequestException` catches every failure the model
can produce). Returns the call made together with the result. -/
def api_get (outcome : HttpResult) (api_key : String) (path : String)
    (params : Option (List (String × PyVal))) : BackendCall × Json :=
  ({ path := path
     params := requestsDropNone (params.getD [])
     headers := apiHeaders api_key },
   apiResult outcome)

/-- The `_track_mcp_request` audit helper: the whole SQLite write
sequence sits in `try: ... except Exception: logger.warning(...)`,
so whatever the write's outcome, the helper returns normally. -/
def track_mcp_request (auditWrite : Except String Unit) : Except String Unit :=
  match auditWrite with
  | .ok _ => Except.ok ()
  | .error _ => Except.ok ()

/-- The parameter dict built by `search_facilities`:
falsy values dropped, `limit` replaced by `min(limit, 100)`. -/
def search_facilities_params (query country state city provider : String)
    (limit : Int) : List (String × PyVal) :=
  pyFilterTruthy
    [("query", PyVal.str query), ("country", PyVal.str country),
     ("state", PyVal.str state), ("city", PyVal.str city),
     ("provider", PyVal.str provider), ("limit", PyVal.int (min limit 100))]

/-- The parameter dict built by `list_transactions`:
`year if year else None`, falsy values dropped, `limit` capped at 100. -/
def list_transactions_params (year : Int) (buyer seller : String)
    (limit : Int) : List (String × PyVal) :=
  pyFilterTruthy
    [("year", pyIntOrNone year), ("buyer", PyVal.str buyer),
     ("seller", PyVal.str seller), ("limit", PyVal.int (min limit 100))]

/-- The parameter dict built by `get_news`:
falsy values dropped, `limit` capped at 50. -/
def get_news_params (topic source : String) (limit : Int) :
    List (String × PyVal) :=
  pyFilterTruthy
    [("topic", PyVal.str topic), ("source", PyVal.str source),
     ("limit", PyVal.int (min limit 50))]

/-- The parameter dict built by `analyze_site`: zero coordinates
become `None`, falsy values dropped, `radius_miles * 1609` converts
miles to meters. -/
def analyze_site_params (latitude longitude : ℚ) (address : String)
    (radius_miles : Int) : List (String × PyVal) :=
  pyFilterTruthy
    [("lat", pyFloatOrNone latitude), ("lng", pyFloatOrNone longitude),
     ("address", PyVal.str address),
     ("radius", PyVal.int (radius_miles * 1609))]

/-- The environment one tool invocation runs in: the outcome of the
audit SQLite write, the network's behaviour for the backend call, and
the current value of the `_current_api_key` context variable. -/
structure ToolEnv where
  audit : Except String Unit
  http : HttpResult
  apiKey : String

/-- The body of the `search_facilities` tool: build params, audit
(exceptions swallowed), one backend call, serialize the result.
Returns the list of backend calls made and the JSON text returned. -/
def search_facilities_run (env : ToolEnv)
    (query country state city provider : String) (limit : Int) :
    Except String (List BackendCall × String) := do
  let params := search_facilities_params query country state city provider limit
  let _ ← track_mcp_request env.audit
  let r := api_get env.http env.apiKey "/api/v1/facilities" (some params)
  pure ([r.1], (r.2).dumps)

/-- The body of the `analyze_site` tool: build params, audit
(exceptions swallowed), one backend call, serialize the result. -/
def analyze_site_run (env : ToolEnv) (latitude longitude : ℚ)
    (address : String) (radius_miles : Int) :
    Except String (List BackendCall × String) := do
  let params := analyze_site_params latitude longitude address radius_miles
  let _ ← track_mcp_request env.audit
  let r := api_get env.http env.apiKey "/api/v1/energy/site-analysis" (some params)
  pure ([r.1], (r.2).dumps)

/-- Python `dict(pairs).get(k, dflt)` as used on the ASGI header list:
building a dict from pairs lets a later duplicate key overwrite an
earlier one, so lookup finds the last matching pair. -/
def pyDictGet (l : List (String × String)) (k dflt : String) : String :=
  match l.reverse.find? (fun kv => kv.1 == k) with
  | some kv => kv.2
  | .none => dflt

/-- Python `p.split("=", 1)[1]`: everything after the first `=`
(empty when `p` contains no `=`; the middleware only applies this to
strings starting with `"api_key="`). -/
def pySplitEqRest (p : String) : String :=
  match p.splitOn "=" with
  | [] => ""
  | [_] => ""
  | _ :: rest => String.intercalate "=" rest

/-- The middleware's query-string fallback: scan `&`-separated
params in order, take the first one starting with `"api_key="`,
and return everything after its first `=` (empty if none matches). -/
def queryApiKey (query_string : String) : String :=
  match (query_string.splitOn "&").find? (fun p => p.startsWith "api_key=") with
  | some p => pySplitEqRest p
  | .none => ""

/-- Credential extraction in `APIKeyMiddleware.__call__`: the
`x-api-key` header (ASGI headers arrive lowercased) when truthy,
otherwise the `api_key` query-string fallback. -/
def extract_api_key (headers : List (String × String)) (query_string : String) :
    String :=
  let api_key := pyDictGet headers "x-api-key" ""
  if api_key ≠ "" then api_key else queryApiKey query_string

/-- Sequential model of `APIKeyMiddleware.__call__` for one request.
The context-variable state is threaded explicitly: `ctx0` is the value
of `_current_api_key` on entry; `app` receives the context value it
observes and returns its result (normal or raised, as `Except`)
together with the context value it leaves behind. For an `http` scope
the middleware extracts the credential, `set`s it (keeping the token,
i.e. the prior value), runs the app, and in `finally` `reset`s the
variable to the token's saved value on every exit path. -/
def APIKeyMiddleware_call {ε α : Type} (scopeType : String)
    (headers : List (String × String)) (query_string : String)
    (app : String → Except ε α × String) (ctx0 : String) :
    Except ε α × String :=
  if scopeType = "http" then
    let api_key := extract_api_key headers query_string
    let tok := ctx0
    let r := app api_key
    (r.1, tok)
  else
    app ctx0

/-
Concurrency model for credential isolation.

Under asyncio each inbound HTTP request is handled in its own task,
and each task runs in its own `contextvars.Context` (copied from the
server's context, where `_current_api_key` holds its default `""`).
`ContextVar.set`/`.reset` mutate only the current task's context, and
`ContextVar.get` reads it, so the store is indexed per task. A
request task executes, in program order: `set` its extracted key
(middleware), the backend fetch reading the key (inside `_api_get`),
and `reset` (middleware `finally`). A scheduler interleaves the
tasks' steps arbitrarily.
-/

/-- Program counter of one request-handling task. -/
inductive TaskPC where
  | start
  | keySet
  | fetched
  | done
deriving DecidableEq, Repr

/-- State of one request-handling task: the credential its request
carried (`key`), its task-local view of `_current_api_key` (`ctx`),
the token saved by `set` (`tok`), and its program counter. -/
structure TaskState where
  key : String
  ctx : String
  tok : String
  pc : TaskPC
deriving DecidableEq, Repr

/-- The `X-API-Key` header value `_api_get` attaches given the
context value it reads: the key when truthy, otherwise no header. -/
def headerOf (ctx : String) : Option String :=
  if ctx ≠ "" then some ctx else Option.none

/-- Global state: every task's state, plus the trace of backend
fetches made so far (task identity paired with the `X-API-Key`
header value that fetch carried, if any). -/
structure Sys (ι : Type) where
  tasks : ι → TaskState
  trace : List (ι × Option String)

/-- A fresh request task holding credential `k`: its task context
starts at the context variable's default `""`. -/
def initTask (k : String) : TaskState :=
  { key := k, ctx := "", tok := "", pc := TaskPC.start }

/-- Initial system: every task fresh, no fetches yet. -/
def initSys {ι : Type} (keys : ι → String) : Sys ι :=
  { tasks := fun i => initTask (keys i), trace := [] }

/-- One scheduler step: some task executes its next operation.
`set` stores the task's credential in its own context (saving the
prior value as the token), `fetch` reads the task's own context and
records the outbound header, `reset` restores the token's value. -/
inductive Step {ι : Type} [DecidableEq ι] : Sys ι → Sys ι → Prop where
  | set (s : Sys ι) (i : ι) (hpc : (s.tasks i).pc = TaskPC.start) :
      Step s ⟨Function.update s.tasks i
          { s.tasks i with ctx := (s.tasks i).key, tok := (s.tasks i).ctx,
                           pc := TaskPC.keySet },
        s.trace⟩
  | fetch (s : Sys ι) (i : ι) (hpc : (s.tasks i).pc = TaskPC.keySet) :
      Step s ⟨Function.update s.tasks i { s.tasks i with pc := TaskPC.fetched },
        s.trace ++ [(i, headerOf (s.tasks i).ctx)]⟩
  | reset (s : Sys ι) (i : ι) (hpc : (s.tasks i).pc = TaskPC.fetched) :
      Step s ⟨Function.update s.tasks i
          { s.tasks i with ctx := (s.tasks i).tok, pc := TaskPC.done },
        s.trace⟩

/-- Reachability under arbitrary interleaving. -/
inductive Reach {ι : Type} [DecidableEq ι] : Sys ι → Sys ι → Prop where
  | refl (s : Sys ι) : Reach s s
  | tail {s t u : Sys ι} : Reach s t → Step t u → Reach s u

/-- Invariant: every task keeps its own credential, its context holds
exactly that credential between `set` and `reset`, and every fetch in
the trace carried the header derived from its own task's credential. -/
def sysInv {ι : Type} (keys : ι → String) (s : Sys ι) : Prop :=
  (∀ i, (s.tasks i).key = keys i ∧
    ((s.tasks i).pc = TaskPC.keySet → (s.tasks i).ctx = keys i)) ∧
  (∀ e ∈ s.trace, e.2 = headerOf (keys e.1))

/-- The initial system satisfies the isolation invariant. -/
theorem initSys_inv {ι : Type} (keys : ι → String) :
    sysInv keys (initSys keys) := by
  refine ⟨fun i => ⟨rfl, fun hpc => ?_⟩, fun e he => ?_⟩
  · simp [initSys, initTask] at hpc
  · simp [initSys] at he

/-- Every scheduler step preserves the isolation invariant. -/
theorem step_inv {ι : Type} [DecidableEq ι] {keys : ι → String}
    {s t : Sys ι} (hs : sysInv keys s) (hst : Step s t) :
    sysInv keys t := by
  obtain ⟨htasks, htrace⟩ := hs
  cases hst with
  | set i hpc =>
      refine ⟨fun j => ?_, htrace⟩
      dsimp only
      by_cases hj : j = i
      · subst hj
        rw [Function.update_same]
        exact ⟨(htasks j).1, fun _ => (htasks j).1⟩
      · rw [Function.update_noteq hj]
        exact htasks j
  | fetch i hpc =>
      refine ⟨fun j => ?_, fun e he => ?_⟩
      · dsimp only
        by_cases hj : j = i
        · subst hj
          rw [Function.update_same]
          exact ⟨(htasks j).1, fun h => nomatch h⟩
        · rw [Function.update_noteq hj]
          exact htasks j
      · dsimp only at he
        rcases List.mem_append.mp he with h | h
        · exact htrace e h
        · rcases List.mem_singleton.mp h with rfl
          dsimp only
          rw [(htasks i).2 hpc]
  | reset i hpc =>
      refine ⟨fun j => ?_, htrace⟩
      dsimp only
      by_cases hj : j = i
      · subst hj
        rw [Function.update_same]
        exact ⟨(htasks j).1, fun h => nomatch h⟩
      · rw [Function.update_noteq hj]
        exact htasks j

/-- Every reachable system satisfies the isolation invariant. -/
theorem reach_inv {ι : Type} [DecidableEq ι] {keys : ι → String}
    {s : Sys ι} (h : Reach (initSys keys) s) : sysInv keys s := by
  induction h with
  | refl => exact initSys_inv keys
  | tail _ hstep ih => exact step_inv ih hstep

/-- C1: for any set of concurrently handled requests with credentials
`keys`, under arbitrary interleaving, every backend fetch recorded for
request `i` carries request `i`'s own credential when it is non-empty
(and no header otherwise), and never the credential of any request
whose credential differs — the `ContextVar` credential context is
bound to the unit of concurrent execution, so no interleaving lets
one request's outbound `X-API-Key` header take another's value. -/
theorem credential_isolation {ι : Type} [DecidableEq ι] (keys : ι → String)
    (s : Sys ι) (hreach : Reach (initSys keys) s) (i : ι) (hdr : Option String)
    (hmem : (i, hdr) ∈ s.trace) :
    hdr = headerOf (keys i) ∧
      ∀ j : ι, keys j ≠ keys i → hdr ≠ some (keys j) := by
  have hinv := reach_inv hreach
  have he : hdr = headerOf (keys i) := hinv.2 (i, hdr) hmem
  refine ⟨he, fun j hj hcontra => ?_⟩
  rw [hcontra] at he
  by_cases hk : keys i = ""
  · rw [headerOf, if_neg (by simp [hk])] at he
    exact Option.noConfusion he
  · rw [headerOf, if_pos hk] at he
    exact hj (Option.some.injEq _ _ ▸ he)

/-- Concrete keys for the isolation witness: request `true` carries
`"abc123"`, request `false` is anonymous. -/
def keysW : Bool → String := fun b => cond b "abc123" ""

/-- Initial witness system. -/
def sysW0 : Sys Bool := initSys keysW

/-- Witness system after request `true` performs its `set`. -/
def sysW1 : Sys Bool :=
  ⟨Function.update sysW0.tasks true
      { sysW0.tasks true with ctx := (sysW0.tasks true).key,
                              tok := (sysW0.tasks true).ctx,
                              pc := TaskPC.keySet },
    sysW0.trace⟩

/-- Witness system after request `true` then performs its fetch. -/
def sysW2 : Sys Bool :=
  ⟨Function.update sysW1.tasks true
      { sysW1.tasks true with pc := TaskPC.fetched },
    sysW1.trace ++ [(true, headerOf (sysW1.tasks true).ctx)]⟩

/-- Witness for C1: along the concrete interleaving set/fetch of
request `true`, the recorded fetch carries `X-API-Key: abc123`, which
is request `true`'s own credential and nobody else's. -/
theorem credential_isolation_witness :
    (true, some "abc123") ∈ sysW2.trace ∧
      (some "abc123" = headerOf (keysW true) ∧
        ∀ j : Bool, keysW j ≠ keysW true → some "abc123" ≠ some (keysW j)) := by
  have h1 : Step sysW0 sysW1 := Step.set sysW0 true rfl
  have h2 : Step sysW1 sysW2 := Step.fetch sysW1 true (by decide)
  have hreach : Reach (initSys keysW) sysW2 :=
    Reach.tail (Reach.tail (Reach.refl sysW0) h1) h2
  exact ⟨by decide,
    credential_isolation keysW sysW2 hreach true (some "abc123") (by decide)⟩

/-- C2: for every inbound HTTP request the credential context is
empty (absent) before handling begins and empty again immediately
after it ends, on every exit path: whatever the downstream app does —
return normally, raise, even overwrite the context itself — the
middleware's try/finally pairs the `set` with a `reset` restoring the
prior (empty, at top level) value; more generally the context is
restored to exactly its entry value. -/
theorem context_reset_on_all_paths (headers : List (String × String))
    (query_string : String) {ε α : Type} (app : String → Except ε α × String)
    (ret : α) (exc : ε) (ctx0 : String) :
    ((APIKeyMiddleware_call "http" headers query_string app "").2 = "") ∧
    ((APIKeyMiddleware_call "http" headers query_string
        (fun k => ((Except.ok ret : Except ε α), k)) "").2 = "") ∧
    ((APIKeyMiddleware_call "http" headers query_string
        (fun k => ((Except.error exc : Except ε α), k)) "").2 = "") ∧
    ((APIKeyMiddleware_call "http" headers query_string app ctx0).2 = ctx0) :=
  ⟨rfl, rfl, rfl, rfl⟩

/-- C3 (amended): `_api_get` turns every failure it can see — timeout,
connection failure, a 4xx/5xx status (the statuses `raise_for_status`
raises for), or a malformed response body — into the uniform mapping
`\x7b"error": "Backend request failed: <details>"\x7d`, never propagating an
exception (the model's result type is a plain `Json`, every branch
total); a 2xx response with a valid JSON body is returned unchanged. -/
theorem backend_errors_as_data (api_key path : String)
    (params : Option (List (String × PyVal))) :
    (∀ e : ReqException,
        (api_get (HttpResult.exn e) api_key path params).2 = errJson e.detail) ∧
    (∀ status detail body, 400 ≤ status → status < 600 →
        (api_get (HttpResult.ok status detail body) api_key path params).2 =
          errJson detail) ∧
    (∀ status detail msg, status < 400 →
        (api_get (HttpResult.ok status detail (Except.error msg))
            api_key path params).2 = errJson msg) ∧
    (∀ status detail j, 200 ≤ status → status < 300 →
        (api_get (HttpResult.ok status detail (Except.ok j))
            api_key path params).2 = j) := by
  refine ⟨fun e => rfl, fun status detail body h1 h2 => ?_,
    fun status detail msg h1 => ?_, fun status detail j h1 h2 => ?_⟩
  · have h : 400 ≤ status ∧ status < 600 := ⟨h1, h2⟩
    simp [api_get, apiResult, h]
  · have h : ¬(400 ≤ status ∧ status < 600) := by omega
    simp [api_get, apiResult, h]
  · have h : ¬(400 ≤ status ∧ status < 600) := by omega
    simp [api_get, apiResult, h]

/-- Witness for C3: each branch of `backend_errors_as_data`
instantiated at a concrete outcome. -/
theorem backend_errors_as_data_witness :
    ((api_get (HttpResult.exn (ReqException.timeout "t")) "" "/p" Option.none).2 =
        errJson "t") ∧
    ((api_get (HttpResult.ok 404 "nf" (Except.ok Json.null)) "" "/p"
        Option.none).2 = errJson "nf") ∧
    ((api_get (HttpResult.ok 200 "" (Except.error "bad body")) "" "/p"
        Option.none).2 = errJson "bad body") ∧
    ((api_get (HttpResult.ok 200 "" (Except.ok (Json.str "v"))) "" "/p"
        Option.none).2 = Json.str "v") := by
  obtain ⟨he, hs, hm, hv⟩ := backend_errors_as_data "" "/p" Option.none
  exact ⟨he (ReqException.timeout "t"),
    hs 404 "nf" (Except.ok Json.null) (by norm_num) (by norm_num),
    hm 200 "" "bad body" (by norm_num),
    hv 200 "" (Json.str "v") (by norm_num) (by norm_num)⟩

/-- Counterexample for C3 as stated: a 304 response (non-2xx, since
`300 ≤ 304`) with a valid JSON body is passed through unchanged by
`_api_get` — `raise_for_status` raises only for 4xx/5xx — so the
result is the body, not the uniform error mapping. -/
theorem backend_errors_as_data_cex :
    300 ≤ 304 ∧
    (api_get (HttpResult.ok 304 "not modified"
        (Except.ok (Json.obj [("cached", Json.bool true)]))) "" "/api/v1/facilities"
        Option.none).2 = Json.obj [("cached", Json.bool true)] ∧
    Json.isBackendError (Json.obj [("cached", Json.bool true)]) = false :=
  ⟨by norm_num, rfl, rfl⟩

/-- C4: a failure of the audit write inside `_track_mcp_request` is
caught and discarded: the helper returns normally on any outcome, the
tool's returned JSON text is identical to what it is when the audit
write succeeds, the handler never fails, and the backend call is
still made with the same parameters. -/
theorem audit_failure_invisible (a1 a2 : Except String Unit) (hr : HttpResult)
    (k query country state city provider : String) (limit : Int) :
    track_mcp_request a1 = Except.ok () ∧
    search_facilities_run ⟨a1, hr, k⟩ query country state city provider limit =
      search_facilities_run ⟨a2, hr, k⟩ query country state city provider limit ∧
    search_facilities_run ⟨a1, hr, k⟩ query country state city provider limit =
      Except.ok
        ([(api_get hr k "/api/v1/facilities"
            (some (search_facilities_params query country state city provider
              limit))).1],
          ((api_get hr k "/api/v1/facilities"
            (some (search_facilities_params query country state city provider
              limit))).2).dumps) := by
  cases a1 <;> cases a2 <;> exact ⟨rfl, rfl, rfl⟩

/-- Helper: a tool run is the pure function of its backend call,
independent of the audit outcome (used to evaluate scenarios). -/
theorem analyze_site_run_eq (env : ToolEnv) (latitude longitude : ℚ)
    (address : String) (radius_miles : Int) :
    analyze_site_run env latitude longitude address radius_miles =
      Except.ok
        ([(api_get env.http env.apiKey "/api/v1/energy/site-analysis"
            (some (analyze_site_params latitude longitude address
              radius_miles))).1],
          ((api_get env.http env.apiKey "/api/v1/energy/site-analysis"
            (some (analyze_site_params latitude longitude address
              radius_miles))).2).dumps) := by
  obtain ⟨a, hr, k⟩ := env
  cases a <;> rfl

/-- C5: the credential forwarded to the backend is the `x-api-key`
header value when present and non-empty; otherwise the first
`api_key` query-string field (header takes precedence); and `_api_get`
attaches an `X-API-Key` header exactly when the resulting credential
is non-empty — an empty credential means no such header at all. -/
theorem credential_selection (headers : List (String × String))
    (query_string : String) (outcome : HttpResult) (path : String)
    (params : Option (List (String × PyVal))) :
    (pyDictGet headers "x-api-key" "" ≠ "" →
        extract_api_key headers query_string = pyDictGet headers "x-api-key" "") ∧
    (pyDictGet headers "x-api-key" "" = "" →
        extract_api_key headers query_string = queryApiKey query_string) ∧
    ((api_get outcome (extract_api_key headers query_string) path params).1.headers =
      if extract_api_key headers query_string = "" then []
      else [("X-API-Key", extract_api_key headers query_string)]) := by
  refine ⟨fun h => ?_, fun h => ?_, ?_⟩
  · rw [extract_api_key, if_pos h]
  · rw [extract_api_key, if_neg (by simp [h])]
  · by_cases h : extract_api_key headers query_string = ""
    · simp [api_get, apiHeaders, h]
    · simp [api_get, apiHeaders, h]

/-- Witness for C5: a request carrying header credential `abc123`
and a conflicting query credential forwards the header value, and the
outbound call carries exactly `X-API-Key: abc123`. -/
theorem credential_selection_witness :
    extract_api_key [("x-api-key", "abc123")] "api_key=zzz" = "abc123" ∧
    (api_get (HttpResult.ok 200 "" (Except.ok Json.null))
        (extract_api_key [("x-api-key", "abc123")] "api_key=zzz")
        "/p" Option.none).1.headers = [("X-API-Key", "abc123")] := by
  obtain ⟨h1, _, h3⟩ := credential_selection [("x-api-key", "abc123")]
    "api_key=zzz" (HttpResult.ok 200 "" (Except.ok Json.null)) "/p" Option.none
  have he : extract_api_key [("x-api-key", "abc123")] "api_key=zzz" = "abc123" :=
    h1 (by decide)
  refine ⟨he, ?_⟩
  rw [h3, if_neg (by rw [he]; decide), he]

/-- C6 (amended): in `search_facilities`, `list_transactions` and
`get_news` the limit used in query construction is `min(limit, cap)`
(cap 100, 100 and 50 respectively): it never exceeds the cap, and for
every supplied limit of at least 1 it lies in `[1, cap]`; but limits
below 1 are not raised to 1 — a limit of 0 makes `min(limit, cap)`
falsy so the `limit` key is omitted, and a negative limit is
forwarded to the backend unchanged. -/
theorem limit_clamping_amended
    (query country state city provider buyer seller topic source : String)
    (year limit : Int) :
    (∀ v, ("limit", v) ∈
        search_facilities_params query country state city provider limit ↔
      v = PyVal.int (min limit 100) ∧ min limit 100 ≠ 0) ∧
    (∀ v, ("limit", v) ∈ list_transactions_params year buyer seller limit ↔
      v = PyVal.int (min limit 100) ∧ min limit 100 ≠ 0) ∧
    (∀ v, ("limit", v) ∈ get_news_params topic source limit ↔
      v = PyVal.int (min limit 50) ∧ min limit 50 ≠ 0) ∧
    (1 ≤ limit →
      1 ≤ min limit 100 ∧ min limit 100 ≤ 100 ∧
      1 ≤ min limit 50 ∧ min limit 50 ≤ 50) := by
  refine ⟨fun v => ?_, fun v => ?_, fun v => ?_, fun h => ?_⟩
  · simp [search_facilities_params, pyFilterTruthy, List.mem_filter,
      PyVal.truthy, and_comm]
    constructor
    · rintro ⟨rfl, ht⟩
      exact ⟨by simpa using ht, rfl⟩
    · rintro ⟨hm, rfl⟩
      simpa using hm
  · simp [list_transactions_params, pyFilterTruthy, List.mem_filter,
      pyIntOrNone, PyVal.truthy, and_comm]
    constructor
    · rintro ⟨rfl, ht⟩
      exact ⟨by simpa using ht, rfl⟩
    · rintro ⟨hm, rfl⟩
      simpa using hm
  · simp [get_news_params, pyFilterTruthy, List.mem_filter,
      PyVal.truthy, and_comm]
    constructor
    · rintro ⟨rfl, ht⟩
      exact ⟨by simpa using ht, rfl⟩
    · rintro ⟨hm, rfl⟩
      simpa using hm
  · constructor
    · exact le_min h (by norm_num)
    · exact ⟨min_le_right _ _, le_min h (by norm_num), min_le_right _ _⟩

/-- Witness for C6 (amended): at `limit = 150` the facilities query
carries `limit = 100 = min(150, 100)`, which lies in `[1, 100]`. -/
theorem limit_clamping_amended_witness :
    ("limit", PyVal.int 100) ∈
        search_facilities_params "" "US" "" "" "" 150 ∧
    (1 : Int) ≤ min 150 100 ∧ min (150 : Int) 100 ≤ 100 := by
  obtain ⟨hs, _, _, hr⟩ :=
    limit_clamping_amended "" "US" "" "" "" "" "" "" "" 0 150
  obtain ⟨h1, h2, _, _⟩ := hr (by norm_num)
  exact ⟨(hs (PyVal.int 100)).mpr (by norm_num), h1, h2⟩

/-- Counterexample for C6 as stated: a supplied limit of `-1` is not
raised to 1 — `min(-1, 100) = -1` is truthy, so the facilities query
sent to the backend contains `limit = -1`, which is below 1. -/
theorem limit_clamping_cex :
    (-1 : Int) < 1 ∧
    ("limit", PyVal.int (-1)) ∈ search_facilities_params "" "" "" "" "" (-1) := by
  decide

/-- C7 (amended): `_api_get` itself omits exactly the keys whose
value is `None` (the `requests` library skips `None`-valued params,
and `params or \x7b\x7d` replaces a falsy mapping by an empty one); keys
bound to an empty string or to zero are NOT dropped by the client —
they are forwarded in the outbound query (callers pre-filter falsy
values, so such keys do not arise from the six tool handlers). -/
theorem client_falsy_filter_amended (outcome : HttpResult)
    (api_key path : String) (params : Option (List (String × PyVal)))
    (key : String) (v : PyVal) :
    (key, v) ∈ (api_get outcome api_key path params).1.params ↔
      (key, v) ∈ params.getD [] ∧ v ≠ PyVal.none := by
  simp [api_get, requestsDropNone, List.mem_filter]

/-- Witness for C7 (amended): a `None`-valued key is dropped by the
client while an empty-string key in the same mapping is kept. -/
theorem client_falsy_filter_amended_witness :
    (("gone", PyVal.none) ∈
        [("q", PyVal.str ""), ("gone", PyVal.none)] ∧ PyVal.none ≠ PyVal.none ↔
      ("gone", PyVal.none) ∈
        (api_get (HttpResult.ok 200 "" (Except.ok Json.null)) "" "/p"
          (some [("q", PyVal.str ""), ("gone", PyVal.none)])).1.params) ∧
    ("q", PyVal.str "") ∈
      (api_get (HttpResult.ok 200 "" (Except.ok Json.null)) "" "/p"
        (some [("q", PyVal.str ""), ("gone", PyVal.none)])).1.params := by
  constructor
  · exact (client_falsy_filter_amended (HttpResult.ok 200 "" (Except.ok Json.null))
      "" "/p" (some [("q", PyVal.str ""), ("gone", PyVal.none)])
      "gone" PyVal.none).symm
  · exact (client_falsy_filter_amended (HttpResult.ok 200 "" (Except.ok Json.null))
      "" "/p" (some [("q", PyVal.str ""), ("gone", PyVal.none)])
      "q" (PyVal.str "")).mpr (by decide)

/-- Counterexample for C7 as stated: a key bound to the empty string
(falsy in Python) is NOT omitted by the client — the outbound query
still contains it; likewise a key bound to zero. -/
theorem client_falsy_filter_cex :
    (PyVal.str "").truthy = false ∧ (PyVal.int 0).truthy = false ∧
    ("q", PyVal.str "") ∈
      (api_get (HttpResult.ok 200 "" (Except.ok Json.null)) "" "/p"
        (some [("q", PyVal.str ""), ("n", PyVal.int 0)])).1.params ∧
    ("n", PyVal.int 0) ∈
      (api_get (HttpResult.ok 200 "" (Except.ok Json.null)) "" "/p"
        (some [("q", PyVal.str ""), ("n", PyVal.int 0)])).1.params := by
  decide

/-- C8: `search_facilities(country="US", limit=150)` with all other
parameters at their defaults makes exactly one backend call, to the
facilities path, whose query mapping is exactly
`\x7b"country": "US", "limit": 100\x7d` — the limit clamped to 100 before
query construction and no other keys present. -/
theorem search_facilities_scenario (env : ToolEnv) :
    search_facilities_run env "" "US" "" "" "" 150 =
      Except.ok
        ([{ path := "/api/v1/facilities",
            params := [("country", PyVal.str "US"), ("limit", PyVal.int 100)],
            headers := apiHeaders env.apiKey }],
          (apiResult env.http).dumps) := by
  obtain ⟨a, hr, k⟩ := env
  cases a <;> rfl

/-- Latitude of the C9 scenario (`32.7767`). -/
def latC9 : ℚ := 327767 / 10000

/-- Longitude of the C9 scenario (`-96.7970`). -/
def lngC9 : ℚ := -96797 / 1000

/-- C9: `analyze_site(latitude=32.7767, longitude=-96.7970,
radius_miles=10)` with no address calls the backend with query
`\x7b"lat": 32.7767, "lng": -96.7970, "radius": 16090\x7d`: the radius is
the exact integer product `10 × 1609`, `lat` and `lng` are populated,
and no `address` key is present. -/
theorem analyze_site_scenario (env : ToolEnv) :
    analyze_site_run env latC9 lngC9 "" 10 =
      Except.ok
        ([{ path := "/api/v1/energy/site-analysis",
            params := [("lat", PyVal.rat latC9), ("lng", PyVal.rat lngC9),
                       ("radius", PyVal.int 16090)],
            headers := apiHeaders env.apiKey }],
          (apiResult env.http).dumps) := by
  have hlat : latC9 ≠ 0 := by norm_num [latC9]
  have hlng : lngC9 ≠ 0 := by norm_num [lngC9]
  have hparams : analyze_site_params latC9 lngC9 "" 10 =
      [("lat", PyVal.rat latC9), ("lng", PyVal.rat lngC9),
       ("radius", PyVal.int 16090)] := by
    simp [analyze_site_params, pyFilterTruthy, pyFloatOrNone, PyVal.truthy,
      hlat, hlng]
  rw [analyze_site_run_eq, hparams]
  simp [api_get, requestsDropNone, apiHeaders]

/-- C10: an invocation of `analyze_site` with `latitude = 0.0` sends
no `lat` key to the backend at all (and likewise `longitude = 0.0`
sends no `lng` key): the inner `latitude if latitude else None` turns
the zero coordinate into `None` and the falsy filter then drops the
key, so a site exactly on the equator or prime meridian cannot be
specified by that coordinate through this interface. -/
theorem zero_coordinate_dropped (latitude longitude : ℚ)
    (address address2 : String) (radius_miles radius2 : Int) :
    List.lookup "lat" (analyze_site_params 0 longitude address radius_miles) =
      Option.none ∧
    List.lookup "lng" (analyze_site_params latitude 0 address2 radius2) =
      Option.none := by
  constructor
  · have h0 : pyFloatOrNone 0 = PyVal.none := by simp [pyFloatOrNone]
    simp only [analyze_site_params, pyFilterTruthy, h0, List.filter_cons]
    split <;> split <;> split <;> split <;>
      simp_all [PyVal.truthy, List.lookup]
  · have h0 : pyFloatOrNone 0 = PyVal.none := by simp [pyFloatOrNone]
    simp only [analyze_site_params, pyFilterTruthy, h0, List.filter_cons]
    split <;> split <;> split <;> split <;>
      simp_all [PyVal.truthy, List.lookup]

end DCHub
